import Mathlib

/-!
Shallow embedding of the petty-cash bookkeeping application (src/App.tsx,
src/types.ts).  Transactions, the derived-balance calculations, the
selection/action rules, the repository mutations and the import/export
operations are translated directly from the source; amounts (JS numbers)
are modelled as integers, the nullable `initialBalance` as `Option Int`,
and the JS `Set<string>` of selected identifiers as a list of strings
with membership testing.
-/

namespace Cash

/-- The `Category` enum from src/types.ts. -/
inductive Category
  | MORNING_KINGDOM
  | STUDENT_PAYMENT
  | INVOICE_REIMBURSEMENT
  | OTHER_ADJUSTMENT
deriving DecidableEq, Repr

/-- The `type` field of a transaction: 'income' | 'expense'. -/
inductive TxType
  | income
  | expense
deriving DecidableEq, Repr

/-- The `Transaction` interface from src/types.ts. -/
structure Transaction where
  id : String
  date : String
  category : Category
  description : String
  amount : Int
  type : TxType
  reimbursed : Bool
deriving DecidableEq, Repr

/-- Reducer body of `calculations.visibleBalance` (App.tsx lines 514-520):
signed amount, overridden to 0 for a reimbursed invoice-reimbursement expense. -/
def visibleStep (acc : Int) (t : Transaction) : Int :=
  let value := if t.type = TxType.income then t.amount else -t.amount
  let value :=
    if t.category = Category.INVOICE_REIMBURSEMENT ∧ t.type = TxType.expense ∧
        t.reimbursed = true then 0
    else value
  acc + value

/-- Embeds `calculations.visibleBalance`: fold of `visibleStep` over the full
(unfiltered) transaction list, starting at `initialBalance ?? 0`. -/
def visibleBalance (transactions : List Transaction) (initialBalance : Option Int) : Int :=
  transactions.foldl visibleStep (initialBalance.getD 0)

/-- Embeds `calculations.receivable` (App.tsx lines 522-526). -/
def receivable (transactions : List Transaction) : Int :=
  transactions.foldl
    (fun acc t =>
      if t.category = Category.MORNING_KINGDOM then acc + t.amount
      else if t.category = Category.STUDENT_PAYMENT then acc - t.amount
      else acc) 0

/-- Embeds `calculations.invoiceOnlyBalance` (App.tsx lines 528-535): the
visible-balance fold restricted to the invoice-reimbursement category,
starting at `initialBalance ?? 0`. -/
def invoiceOnlyBalance (transactions : List Transaction) (initialBalance : Option Int) : Int :=
  transactions.foldl
    (fun acc t =>
      if t.category = Category.INVOICE_REIMBURSEMENT then
        let value := if t.type = TxType.income then t.amount else -t.amount
        let value := if t.type = TxType.expense ∧ t.reimbursed = true then 0 else value
        acc + value
      else acc) (initialBalance.getD 0)

/-- Embeds `calculations.unreimbursedTotal` (App.tsx line 537). -/
def unreimbursedTotal (transactions : List Transaction) : Int :=
  transactions.foldl
    (fun acc t =>
      if t.category = Category.INVOICE_REIMBURSEMENT ∧ t.type = TxType.expense ∧
          t.reimbursed = false then acc + t.amount
      else acc) 0

/-- Embeds `calculations.verificationTotal` (App.tsx line 538). -/
def verificationTotal (transactions : List Transaction) (initialBalance : Option Int) : Int :=
  invoiceOnlyBalance transactions initialBalance + unreimbursedTotal transactions

/-- Spec-side per-transaction contribution, following the spec's words for
`visibleBalance`: `+amount` for income, `-amount` for expense, except a
reimbursed invoice-reimbursement expense contributes exactly 0. -/
def specContribution (t : Transaction) : Int :=
  if t.category = Category.INVOICE_REIMBURSEMENT ∧ t.type = TxType.expense ∧
      t.reimbursed = true then 0
  else if t.type = TxType.income then t.amount else -t.amount

/-- Spec-side signed sum of contributions over a transaction list. -/
def specSignedSum (transactions : List Transaction) : Int :=
  (transactions.map specContribution).sum

lemma visibleStep_eq (acc : Int) (t : Transaction) :
    visibleStep acc t = acc + specContribution t := by
  unfold visibleStep specContribution
  split <;> simp

lemma foldl_visibleStep (transactions : List Transaction) (acc : Int) :
    transactions.foldl visibleStep acc = acc + specSignedSum transactions := by
  induction transactions generalizing acc with
  | nil => simp [specSignedSum]
  | cons t ts ih =>
      rw [List.foldl_cons, ih, visibleStep_eq]
      simp [specSignedSum, add_assoc]

/-- C1: for every transaction list and every initialBalance, `visibleBalance`
equals the initial balance (`initialBalance ?? 0`) plus the fold over all
transactions — the list is the full repository list, taken before any
category filter or search query is applied — of `+amount` for income and
`-amount` for expense, except that a reimbursed invoice-reimbursement
expense contributes exactly 0. -/
theorem visibleBalance_eq_initial_add_signedSum
    (transactions : List Transaction) (initialBalance : Option Int) :
    visibleBalance transactions initialBalance =
      initialBalance.getD 0 + specSignedSum transactions := by
  unfold visibleBalance
  exact foldl_visibleStep transactions _

/-- The single unreimbursed invoice-reimbursement expense of 5000 used in the
spec's reconciliation scenario. -/
def scenarioTx : Transaction :=
  { id := "1", date := "2024-01-01", category := Category.INVOICE_REIMBURSEMENT,
    description := "", amount := 5000, type := TxType.expense, reimbursed := false }

/-- C4: `verificationTotal` always equals `invoiceOnlyBalance` plus
`unreimbursedTotal`, and in the spec's scenario (initialBalance 0, one
unreimbursed invoice-reimbursement expense of 5000) the figures are
`unreimbursedTotal = 5000`, `invoiceOnlyBalance = -5000`,
`verificationTotal = 0`. -/
theorem verificationTotal_decomposition_and_scenario :
    (∀ (transactions : List Transaction) (initialBalance : Option Int),
        verificationTotal transactions initialBalance =
          invoiceOnlyBalance transactions initialBalance +
            unreimbursedTotal transactions) ∧
      unreimbursedTotal [scenarioTx] = 5000 ∧
      invoiceOnlyBalance [scenarioTx] (some 0) = -5000 ∧
      verificationTotal [scenarioTx] (some 0) = 0 := by
  refine ⟨fun transactions initialBalance => rfl, ?_, ?_, ?_⟩ <;> decide

/-- The transactions of the repository matched by the selection set
(`transactions.filter(t => selectedTransactionIds.has(t.id))`,
App.tsx line 562). -/
def selectedTransactions (transactions : List Transaction) (sel : List String) :
    List Transaction :=
  transactions.filter (fun t => sel.contains t.id)

/-- Embeds `canReimburse` (App.tsx lines 560-566): false on an empty selection;
otherwise the matched selected transactions must be non-empty and all be
unreimbursed invoice-reimbursement transactions. -/
def canReimburse (transactions : List Transaction) (sel : List String) : Bool :=
  if sel.length = 0 then false
  else
    let selected := selectedTransactions transactions sel
    decide (0 < selected.length) &&
      selected.all (fun t => decide (t.category = Category.INVOICE_REIMBURSEMENT) && !t.reimbursed)

/-- Embeds `canCancelReimbursement` (App.tsx lines 560-566): as `canReimburse` but
requiring every matched selected transaction to be reimbursed. -/
def canCancelReimbursement (transactions : List Transaction) (sel : List String) : Bool :=
  if sel.length = 0 then false
  else
    let selected := selectedTransactions transactions sel
    decide (0 < selected.length) &&
      selected.all (fun t => decide (t.category = Category.INVOICE_REIMBURSEMENT) && t.reimbursed)

/-- Spec-side reading of `canReimburse` following the spec's words literally:
selection non-empty and every selected transaction (vacuously true when no
selected identifier matches) is an unreimbursed invoice-reimbursement. -/
def specCanReimburse (transactions : List Transaction) (sel : List String) : Bool :=
  !sel.isEmpty &&
    (selectedTransactions transactions sel).all
      (fun t => decide (t.category = Category.INVOICE_REIMBURSEMENT) && !t.reimbursed)

lemma selectedTransactions_nil_sel (transactions : List Transaction) :
    selectedTransactions transactions [] = [] := by
  simp [selectedTransactions, List.filter_eq_nil_iff]

/-- C3 counterexample: with an empty repository and the stale selection
`["a"]`, the code's `canReimburse` is false while the claim's
characterization (selection non-empty ∧ every selected transaction
unreimbursed invoice-reimbursement) is vacuously true, so the claimed
`iff` fails. -/
theorem canReimburse_stale_selection_cex :
    canReimburse [] ["a"] = false ∧ specCanReimburse [] ["a"] = true := by
  decide

lemma canReimburse_char (transactions : List Transaction) (sel : List String) :
    canReimburse transactions sel =
      (!(selectedTransactions transactions sel).isEmpty &&
        (selectedTransactions transactions sel).all
          (fun t => decide (t.category = Category.INVOICE_REIMBURSEMENT) && !t.reimbursed)) := by
  unfold canReimburse
  split
  · next hlen =>
      have hsel : sel = [] := List.length_eq_zero.mp hlen
      subst hsel
      rw [selectedTransactions_nil_sel]
      rfl
  · next hlen =>
      cases h : selectedTransactions transactions sel with
      | nil => simp [h]
      | cons t ts => simp [h]

lemma canCancelReimbursement_char (transactions : List Transaction) (sel : List String) :
    canCancelReimbursement transactions sel =
      (!(selectedTransactions transactions sel).isEmpty &&
        (selectedTransactions transactions sel).all
          (fun t => decide (t.category = Category.INVOICE_REIMBURSEMENT) && t.reimbursed)) := by
  unfold canCancelReimbursement
  split
  · next hlen =>
      have hsel : sel = [] := List.length_eq_zero.mp hlen
      subst hsel
      rw [selectedTransactions_nil_sel]
      rfl
  · next hlen =>
      cases h : selectedTransactions transactions sel with
      | nil => simp [h]
      | cons t ts => simp [h]

/-- C3 amended: `canReimburse` and `canCancelReimbursement` are never both
true, and each holds exactly when at least one selected identifier matches
a transaction and every matched selected transaction is an
invoice-reimbursement with the corresponding `reimbursed` value. -/
theorem reimburse_flags_exclusive_and_characterized
    (transactions : List Transaction) (sel : List String) :
    (canReimburse transactions sel && canCancelReimbursement transactions sel) = false ∧
      canReimburse transactions sel =
        (!(selectedTransactions transactions sel).isEmpty &&
          (selectedTransactions transactions sel).all
            (fun t => decide (t.category = Category.INVOICE_REIMBURSEMENT) && !t.reimbursed)) ∧
      canCancelReimbursement transactions sel =
        (!(selectedTransactions transactions sel).isEmpty &&
          (selectedTransactions transactions sel).all
            (fun t => decide (t.category = Category.INVOICE_REIMBURSEMENT) && t.reimbursed)) := by
  refine ⟨?_, canReimburse_char transactions sel, canCancelReimbursement_char transactions sel⟩
  rw [canReimburse_char, canCancelReimbursement_char]
  cases h : selectedTransactions transactions sel with
  | nil => simp
  | cons t ts =>
      simp only [List.isEmpty_cons, List.all_cons, Bool.not_false, Bool.true_and]
      cases hr : t.reimbursed <;> simp [hr]

/-- C10: for a non-empty selection none of whose identifiers matches any
transaction in the repository, both `canReimburse` and
`canCancelReimbursement` are false. -/
theorem stale_selection_disables_reimburse
    (transactions : List Transaction) (sel : List String)
    (hne : sel ≠ [])
    (hstale : ∀ t ∈ transactions, sel.contains t.id = false) :
    canReimburse transactions sel = false ∧
      canCancelReimbursement transactions sel = false := by
  have hempty : selectedTransactions transactions sel = [] := by
    rw [selectedTransactions, List.filter_eq_nil_iff]
    intro t ht
    simpa using hstale t ht
  have h1 := canReimburse_char transactions sel
  have h2 := canCancelReimbursement_char transactions sel
  rw [hempty] at h1 h2
  simp at h1 h2
  exact ⟨h1, h2⟩

/-- Witness for C10 at a concrete stale state. -/
theorem stale_selection_disables_reimburse_witness :
    canReimburse [scenarioTx] ["zzz"] = false ∧
      canCancelReimbursement [scenarioTx] ["zzz"] = false := by
  refine stale_selection_disables_reimburse [scenarioTx] ["zzz"] (by decide) ?_
  intro t ht
  have h : t = scenarioTx := by
    cases ht with
    | head => rfl
    | tail _ h => cases h
  subst h
  decide

/-- The application state relevant to the claims: the repository list,
the two settings and the selection set (App.tsx lines 352-356). -/
structure AppState where
  transactions : List Transaction
  initialBalance : Option Int
  targetTotal : Int
  selectedTransactionIds : List String
deriving DecidableEq, Repr

/-- Embeds `handleDelete` in the `single` case (App.tsx lines 433-434): filter the
repository by identifier; the selection set is not touched. -/
def handleDeleteSingle (targetId : String) (st : AppState) : AppState :=
  { st with transactions := st.transactions.filter (fun t => decide (t.id ≠ targetId)) }

/-- Embeds `handleDelete` in the `bulk` case (App.tsx lines 435-438): remove every
selected transaction, then clear the selection set. -/
def handleDeleteBulk (st : AppState) : AppState :=
  { st with
      transactions :=
        st.transactions.filter (fun t => !(st.selectedTransactionIds.contains t.id)),
      selectedTransactionIds := [] }

/-- A selected transaction used in the C2 counterexample. -/
def selTx : Transaction :=
  { id := "1", date := "2024-03-05", category := Category.INVOICE_REIMBURSEMENT,
    description := "", amount := 100, type := TxType.expense, reimbursed := false }

/-- A state in which `selTx` is both in the repository and selected. -/
def selSt : AppState :=
  { transactions := [selTx], initialBalance := some 0, targetTotal := 30000,
    selectedTransactionIds := ["1"] }

/-- C2 counterexample: `selTx` is in both the repository and the selection
set of `selSt`, yet after the single-record delete its identifier is still
in the selection set — the single delete does not remove it from both. -/
theorem singleDelete_keeps_selection_cex :
    selTx ∈ selSt.transactions ∧
      selSt.selectedTransactionIds.contains selTx.id = true ∧
      (handleDeleteSingle selTx.id selSt).transactions = [] ∧
      (handleDeleteSingle selTx.id selSt).selectedTransactionIds.contains selTx.id = true := by
  decide

/-- C2 amended: for a transaction present in both the repository and the
selection set, the bulk delete removes its identifier from the repository
and clears the selection set, while the single-record delete removes it
from the repository but leaves the selection set unchanged. -/
theorem delete_removes_from_repository
    (st : AppState) (t : Transaction)
    (hrepo : t ∈ st.transactions)
    (hsel : st.selectedTransactionIds.contains t.id = true) :
    ((handleDeleteBulk st).transactions.all (fun u => decide (u.id ≠ t.id)) = true ∧
      (handleDeleteBulk st).selectedTransactionIds = []) ∧
      ((handleDeleteSingle t.id st).transactions.all (fun u => decide (u.id ≠ t.id)) = true ∧
        (handleDeleteSingle t.id st).selectedTransactionIds =
          st.selectedTransactionIds) := by
  refine ⟨⟨?_, rfl⟩, ⟨?_, rfl⟩⟩
  · rw [List.all_eq_true]
    intro u hu
    have hu' := List.mem_filter.mp hu
    simp only [Bool.not_eq_true'] at hu'
    simp only [decide_eq_true_eq]
    intro heq
    rw [heq] at hu'
    rw [hsel] at hu'
    exact absurd hu'.2 (by simp)
  · rw [List.all_eq_true]
    intro u hu
    exact (List.mem_filter.mp hu).2

/-- Witness for C2's amended theorem at the concrete state `selSt`. -/
theorem delete_removes_from_repository_witness :
    ((handleDeleteBulk selSt).transactions.all (fun u => decide (u.id ≠ selTx.id)) = true ∧
      (handleDeleteBulk selSt).selectedTransactionIds = []) ∧
      ((handleDeleteSingle selTx.id selSt).transactions.all
          (fun u => decide (u.id ≠ selTx.id)) = true ∧
        (handleDeleteSingle selTx.id selSt).selectedTransactionIds =
          selSt.selectedTransactionIds) :=
  delete_removes_from_repository selSt selTx (by decide) (by decide)

/-- Date-descending order used by every repository re-sort
(`(a, b) => b.date.localeCompare(a.date)`): `a` may precede `b` when
`a.date` is not lexicographically below `b.date` (i.e. `b.date ≤ a.date`
under character-wise lexicographic comparison of the ISO date strings). -/
def dateDesc (a b : Transaction) : Prop :=
  ¬ List.Lex (· < ·) a.date.data b.date.data

instance : DecidableRel dateDesc := fun a b =>
  inferInstanceAs (Decidable (¬ List.Lex (· < ·) a.date.data b.date.data))

instance : IsTotal Transaction dateDesc :=
  ⟨fun a b => by
    by_cases h : List.Lex (· < ·) a.date.data b.date.data
    · exact Or.inr (asymm h)
    · exact Or.inl h⟩

instance : IsTrans Transaction dateDesc :=
  ⟨fun a b c hab hbc hac =>
    ((IsOrderConnected.conn a.date.data b.date.data c.date.data hac).elim hab hbc)⟩

/-- The stable date-descending sort applied after every mutation
(`.sort((a, b) => b.date.localeCompare(a.date))`). -/
def sortByDateDesc (transactions : List Transaction) : List Transaction :=
  transactions.insertionSort dateDesc

/-- The fields of a transaction supplied by the form
(`Omit<Transaction, 'id' | 'reimbursed'>`). -/
structure TxInput where
  date : String
  category : Category
  description : String
  amount : Int
  type : TxType
deriving DecidableEq, Repr

/-- The new record built by `handleAddTransaction` (App.tsx line 414):
input fields plus a freshly generated identifier and `reimbursed: false`.
The identifier (`Date.now().toString()` in the source) is a parameter. -/
def mkTransaction (input : TxInput) (newId : String) : Transaction :=
  { id := newId, date := input.date, category := input.category,
    description := input.description, amount := input.amount,
    type := input.type, reimbursed := false }

/-- Embeds `handleAddTransaction` (App.tsx lines 413-417): append the new record
and re-sort by date descending. -/
def handleAddTransaction (input : TxInput) (newId : String)
    (transactions : List Transaction) : List Transaction :=
  sortByDateDesc (transactions ++ [mkTransaction input newId])

/-- Embeds `handleUpdateTransaction` (App.tsx lines 419-423): replace by
identifier, then re-sort by date descending. -/
def handleUpdateTransaction (u : Transaction)
    (transactions : List Transaction) : List Transaction :=
  sortByDateDesc (transactions.map (fun t => if t.id = u.id then u else t))

/-- Per-element body of `handleReimburse` (App.tsx line 555): set the
`reimbursed` flag on a selected transaction, leave others unchanged. -/
def reimburseOne (sel : List String) (reimburse : Bool) (t : Transaction) : Transaction :=
  if sel.contains t.id then { t with reimbursed := reimburse } else t

/-- Embeds `handleReimburse` (App.tsx lines 554-558): map `reimburseOne` over the
repository (no re-sort; the map preserves dates). -/
def handleReimburse (sel : List String) (reimburse : Bool)
    (transactions : List Transaction) : List Transaction :=
  transactions.map (reimburseOne sel reimburse)

lemma reimburseOne_date (sel : List String) (reimburse : Bool) (t : Transaction) :
    (reimburseOne sel reimburse t).date = t.date := by
  unfold reimburseOne
  split <;> rfl

lemma sorted_sortByDateDesc (transactions : List Transaction) :
    List.Sorted dateDesc (sortByDateDesc transactions) :=
  List.sorted_insertionSort dateDesc transactions

/-- C7: date-descending sortedness is an invariant of the repository — if
the list is sorted before an add, an update, a single delete, a bulk
delete or a reimburse-flag update, it is sorted afterwards. -/
theorem mutations_preserve_dateDesc_sorted
    (st : AppState) (input : TxInput) (newId : String) (u : Transaction)
    (targetId : String) (sel : List String) (reimburse : Bool)
    (hs : List.Sorted dateDesc st.transactions) :
    List.Sorted dateDesc (handleAddTransaction input newId st.transactions) ∧
      List.Sorted dateDesc (handleUpdateTransaction u st.transactions) ∧
      List.Sorted dateDesc (handleDeleteSingle targetId st).transactions ∧
      List.Sorted dateDesc (handleDeleteBulk st).transactions ∧
      List.Sorted dateDesc (handleReimburse sel reimburse st.transactions) := by
  refine ⟨sorted_sortByDateDesc _, sorted_sortByDateDesc _, ?_, ?_, ?_⟩
  · exact hs.filter _
  · exact hs.filter _
  · unfold handleReimburse
    rw [List.Sorted, List.pairwise_map]
    refine hs.imp ?_
    intro a b h
    unfold dateDesc at h ⊢
    rw [reimburseOne_date, reimburseOne_date]
    exact h

/-- Witness for C7 at a concrete sorted two-element repository. -/
theorem mutations_preserve_dateDesc_sorted_witness :
    List.Sorted dateDesc
        (handleAddTransaction
          { date := "2024-02-01", category := Category.OTHER_ADJUSTMENT,
            description := "", amount := 7, type := TxType.income }
          "77" selSt.transactions) ∧
      List.Sorted dateDesc (handleUpdateTransaction selTx selSt.transactions) ∧
      List.Sorted dateDesc (handleDeleteSingle "1" selSt).transactions ∧
      List.Sorted dateDesc (handleDeleteBulk selSt).transactions ∧
      List.Sorted dateDesc (handleReimburse ["1"] true selSt.transactions) :=
  mutations_preserve_dateDesc_sorted selSt
    { date := "2024-02-01", category := Category.OTHER_ADJUSTMENT,
      description := "", amount := 7, type := TxType.income }
    "77" selTx "1" ["1"] true (by simp [selSt, List.Sorted])

/-- An existing transaction whose identifier happens to equal the
identifier the generator produces for the next add (C8 counterexample). -/
def clashTx : Transaction :=
  { id := "5", date := "2024-01-02", category := Category.OTHER_ADJUSTMENT,
    description := "", amount := 10, type := TxType.income, reimbursed := false }

/-- C8 counterexample: `handleAddTransaction` uses the generated identifier
(`Date.now().toString()`) without checking it against the repository, so
when the generated identifier `"5"` already occurs, the resulting list
holds two transactions with identifier `"5"` — the new identifier is not
distinct and identifiers are no longer unique. -/
theorem add_duplicate_id_cex :
    "5" ∈ [clashTx].map (fun t => t.id) ∧
      ((handleAddTransaction
          { date := "2024-01-01", category := Category.OTHER_ADJUSTMENT,
            description := "", amount := 20, type := TxType.income }
          "5" [clashTx]).map (fun t => t.id)) = ["5", "5"] := by
  decide

/-- C8 amended: the transaction built by an add always has
`reimbursed = false` and carries the generated identifier and the input's
fields; it lands in the resulting repository, which is sorted by date
descending; and provided the generated identifier does not already occur
(which the code assumes but does not enforce), identifier uniqueness is
preserved. -/
theorem add_transaction_spec (input : TxInput) (newId : String)
    (transactions : List Transaction)
    (hfresh : newId ∉ transactions.map (fun t => t.id))
    (hnodup : (transactions.map (fun t => t.id)).Nodup) :
    (mkTransaction input newId).reimbursed = false ∧
      (mkTransaction input newId).id = newId ∧
      (mkTransaction input newId ∈ handleAddTransaction input newId transactions) ∧
      ((handleAddTransaction input newId transactions).map (fun t => t.id)).Nodup ∧
      List.Sorted dateDesc (handleAddTransaction input newId transactions) := by
  have hperm : List.Perm (handleAddTransaction input newId transactions)
      (transactions ++ [mkTransaction input newId]) :=
    List.perm_insertionSort dateDesc _
  refine ⟨rfl, rfl, ?_, ?_, sorted_sortByDateDesc _⟩
  · exact hperm.mem_iff.mpr (List.mem_append_right _ (List.mem_singleton.mpr rfl))
  · refine ((hperm.map (fun t => t.id)).nodup_iff).mpr ?_
    rw [List.map_append]
    rw [List.nodup_append]
    refine ⟨hnodup, List.nodup_singleton _, ?_⟩
    intro a ha hb
    have hb' : a = newId := by simpa [mkTransaction] using hb
    exact hfresh (hb' ▸ ha)

/-- Witness for C8's amended theorem: adding with the fresh identifier
`"9"` to the repository `[clashTx]`. -/
theorem add_transaction_spec_witness :
    (mkTransaction
        { date := "2024-01-01", category := Category.OTHER_ADJUSTMENT,
          description := "", amount := 20, type := TxType.income } "9").reimbursed = false ∧
      (mkTransaction
          { date := "2024-01-01", category := Category.OTHER_ADJUSTMENT,
            description := "", amount := 20, type := TxType.income } "9").id = "9" ∧
      (mkTransaction
          { date := "2024-01-01", category := Category.OTHER_ADJUSTMENT,
            description := "", amount := 20, type := TxType.income } "9" ∈
        handleAddTransaction
          { date := "2024-01-01", category := Category.OTHER_ADJUSTMENT,
            description := "", amount := 20, type := TxType.income } "9" [clashTx]) ∧
      ((handleAddTransaction
            { date := "2024-01-01", category := Category.OTHER_ADJUSTMENT,
              description := "", amount := 20, type := TxType.income }
            "9" [clashTx]).map (fun t => t.id)).Nodup ∧
      List.Sorted dateDesc
        (handleAddTransaction
          { date := "2024-01-01", category := Category.OTHER_ADJUSTMENT,
            description := "", amount := 20, type := TxType.income } "9" [clashTx]) :=
  add_transaction_spec
    { date := "2024-01-01", category := Category.OTHER_ADJUSTMENT,
      description := "", amount := 20, type := TxType.income }
    "9" [clashTx] (by decide) (by decide)

/-- Outcome of the `typeof data.initialBalance === 'number'` check on a
payload field: a number, or any non-number JSON value. -/
inductive JsonNumField
  | num (x : Int)
  | notNum
deriving DecidableEq, Repr

/-- Outcome of the `Array.isArray(data.transactions)` check on a payload
field: an array of transactions, or any non-array JSON value. -/
inductive JsonArrField
  | arr (transactions : List Transaction)
  | notArr
deriving DecidableEq, Repr

/-- The parsed candidate import payload
`{ initialBalance, targetTotal, transactions }`. -/
structure ImportPayload where
  initialBalance : JsonNumField
  targetTotal : JsonNumField
  transactions : JsonArrField
deriving DecidableEq, Repr

/-- What `handleImportData` reports: success, the format-error alert, or
no action because the user declined the confirmation dialog. -/
inductive ImportResult
  | success
  | formatError
  | cancelled
deriving DecidableEq, Repr

/-- The structural validation of `handleImportData` (App.tsx line 479):
`initialBalance` and `targetTotal` numbers and `transactions` an array. -/
def isValidPayload (p : ImportPayload) : Bool :=
  match p.initialBalance, p.targetTotal, p.transactions with
  | JsonNumField.num _, JsonNumField.num _, JsonArrField.arr _ => true
  | _, _, _ => false

/-- Embeds `handleImportData` (App.tsx lines 468-498): on a structurally valid
payload and user confirmation, replace `initialBalance`, `targetTotal` and
`transactions` (re-sorted by date descending); otherwise leave the state
unchanged, reporting a format error when validation failed. -/
def handleImportData (p : ImportPayload) (confirm : Bool) (st : AppState) :
    AppState × ImportResult :=
  match p.initialBalance, p.targetTotal, p.transactions with
  | JsonNumField.num ib, JsonNumField.num tt, JsonArrField.arr ts =>
      if confirm then
        ({ st with
            initialBalance := some ib,
            targetTotal := tt,
            transactions := sortByDateDesc ts }, ImportResult.success)
      else (st, ImportResult.cancelled)
  | _, _, _ => (st, ImportResult.formatError)

/-- Embeds `handleExportData` (App.tsx lines 452-466): serialize
`{ initialBalance, targetTotal, transactions }` as-is (a null
`initialBalance` serializes as a non-number). -/
def handleExportData (st : AppState) : ImportPayload :=
  { initialBalance :=
      match st.initialBalance with
      | some x => JsonNumField.num x
      | none => JsonNumField.notNum,
    targetTotal := JsonNumField.num st.targetTotal,
    transactions := JsonArrField.arr st.transactions }

/-- C6: the import accepts a payload only if it passes the structural
validation; an invalid payload yields a format error and leaves the state
unchanged; a valid, confirmed payload replaces all three fields, with the
transactions re-sorted by date descending. -/
theorem importData_validation (p : ImportPayload) (confirm : Bool) (st : AppState) :
    ((handleImportData p confirm st).2 = ImportResult.success →
        isValidPayload p = true) ∧
      (isValidPayload p = false →
        handleImportData p confirm st = (st, ImportResult.formatError)) ∧
      (∀ (ib tt : Int) (ts : List Transaction),
        p = { initialBalance := JsonNumField.num ib, targetTotal := JsonNumField.num tt,
              transactions := JsonArrField.arr ts } →
        confirm = true →
        handleImportData p confirm st =
          ({ st with
              initialBalance := some ib,
              targetTotal := tt,
              transactions := sortByDateDesc ts }, ImportResult.success)) := by
  obtain ⟨pib, ptt, pts⟩ := p
  refine ⟨?_, ?_, ?_⟩
  · cases confirm <;> cases pib <;> cases ptt <;> cases pts <;>
      simp [handleImportData, isValidPayload]
  · cases pib <;> cases ptt <;> cases pts <;>
      simp [handleImportData, isValidPayload]
  · intro ib tt ts hp hc
    cases hp
    subst hc
    simp [handleImportData]

/-- Witness for C6 at a concrete valid payload and a concrete invalid one
cannot share one closed application; this instantiates the valid,
confirmed branch at the state `selSt`. -/
theorem importData_validation_witness :
    handleImportData
        { initialBalance := JsonNumField.num 3, targetTotal := JsonNumField.num 4,
          transactions := JsonArrField.arr [] }
        true selSt =
      ({ selSt with
          initialBalance := some 3,
          targetTotal := 4,
          transactions := sortByDateDesc [] }, ImportResult.success) :=
  (importData_validation
      { initialBalance := JsonNumField.num 3, targetTotal := JsonNumField.num 4,
        transactions := JsonArrField.arr [] }
      true selSt).2.2 3 4 [] rfl rfl

/-- Transactions listed in ascending date order, so not date-descending
sorted (C5 counterexample). -/
def earlyTx : Transaction :=
  { id := "a", date := "2024-01-01", category := Category.OTHER_ADJUSTMENT,
    description := "", amount := 1, type := TxType.income, reimbursed := false }

def lateTx : Transaction :=
  { id := "b", date := "2024-02-01", category := Category.OTHER_ADJUSTMENT,
    description := "", amount := 2, type := TxType.income, reimbursed := false }

/-- A state whose transaction list is not sorted by date descending. -/
def unsortedSt : AppState :=
  { transactions := [earlyTx, lateTx], initialBalance := some 0,
    targetTotal := 30000, selectedTransactionIds := [] }

/-- C5 counterexample: exporting `unsortedSt` (numeric initialBalance,
arbitrary transaction list as the claim allows) and importing the payload
back re-sorts the list, so the resulting transaction list differs from the
original — the round trip is not the identity for every state. -/
theorem export_import_unsorted_cex :
    (handleImportData (handleExportData unsortedSt) true unsortedSt).1.transactions ≠
      unsortedSt.transactions := by
  decide

/-- C5 amended: for every state with a numeric `initialBalance` whose
transaction list is already sorted by date descending, export followed by
confirmed import returns exactly the original state (and reports
success) — the re-sort leaves the already-sorted list unchanged. -/
theorem export_import_roundtrip (st : AppState) (ib : Int)
    (hib : st.initialBalance = some ib)
    (hsorted : List.Sorted dateDesc st.transactions) :
    handleImportData (handleExportData st) true st = (st, ImportResult.success) := by
  unfold handleExportData handleImportData
  rw [hib]
  simp only
  rw [show sortByDateDesc st.transactions = st.transactions from
        hsorted.insertionSort_eq]
  rw [← hib]
  simp

/-- Witness for C5's amended theorem at the concrete sorted state `selSt`. -/
theorem export_import_roundtrip_witness :
    handleImportData (handleExportData selSt) true selSt = (selSt, ImportResult.success) :=
  export_import_roundtrip selSt 0 rfl (by simp [selSt, List.Sorted])

/-- Embeds `Object.values(Category)` in declaration order (src/types.ts). -/
def allCategories : List Category :=
  [Category.MORNING_KINGDOM, Category.STUDENT_PAYMENT,
   Category.INVOICE_REIMBURSEMENT, Category.OTHER_ADJUSTMENT]

/-- Embeds `availableCategories` of the transaction form (App.tsx lines 86-91):
income excludes invoice-reimbursement and fund-source (MORNING_KINGDOM),
expense excludes student-payment. -/
def availableCategories : TxType → List Category
  | TxType.income =>
      allCategories.filter
        (fun c => decide (c ≠ Category.INVOICE_REIMBURSEMENT) &&
          decide (c ≠ Category.MORNING_KINGDOM))
  | TxType.expense =>
      allCategories.filter (fun c => decide (c ≠ Category.STUDENT_PAYMENT))

/-- The transaction form's local state (App.tsx lines 69-73). -/
structure FormState where
  date : String
  category : Category
  description : String
  amount : String
  type : TxType
deriving DecidableEq, Repr

/-- The form's initial state (App.tsx lines 69-73): today's date, category
invoice-reimbursement, type expense. -/
def initialFormState (today : String) : FormState :=
  { date := today, category := Category.INVOICE_REIMBURSEMENT,
    description := "", amount := "", type := TxType.expense }

/-- The category-coercion effect (App.tsx lines 93-97): whenever the
current category is not in the available list for the current type, it is
replaced by the first available category (falling back to
other-adjustment). -/
def normalizeCategory (s : FormState) : FormState :=
  if s.category ∈ availableCategories s.type then s
  else { s with category := (availableCategories s.type).headD Category.OTHER_ADJUSTMENT }

/-- The user-driven events of the form: field edits and loading an
existing transaction for editing (App.tsx lines 76-97, 124-139). -/
inductive FormEvent
  | setDate (d : String)
  | setType (ty : TxType)
  | setCategory (c : Category)
  | setDescription (d : String)
  | setAmount (a : String)
  | loadEditing (t : Transaction)

/-- The raw state change of each form event, before the coercion effect. -/
def applyFormEvent (s : FormState) : FormEvent → FormState
  | FormEvent.setDate d => { s with date := d }
  | FormEvent.setType ty => { s with type := ty }
  | FormEvent.setCategory c => { s with category := c }
  | FormEvent.setDescription d => { s with description := d }
  | FormEvent.setAmount a => { s with amount := a }
  | FormEvent.loadEditing t =>
      { date := t.date, category := t.category, description := t.description,
        amount := toString t.amount, type := t.type }

/-- One form step: the event's state change followed by the
category-coercion effect (which runs after every render). -/
def stepForm (s : FormState) (e : FormEvent) : FormState :=
  normalizeCategory (applyFormEvent s e)

/-- The form state reached after a sequence of events, starting from the
initial state with the coercion effect applied. -/
def runForm (today : String) (evs : List FormEvent) : FormState :=
  evs.foldl stepForm (normalizeCategory (initialFormState today))

lemma headD_available_mem (ty : TxType) :
    (availableCategories ty).headD Category.OTHER_ADJUSTMENT ∈ availableCategories ty := by
  cases ty <;> decide

lemma normalizeCategory_mem (s : FormState) :
    (normalizeCategory s).category ∈ availableCategories (normalizeCategory s).type := by
  unfold normalizeCategory
  split
  · next h => exact h
  · exact headD_available_mem s.type

lemma foldl_stepForm_mem (evs : List FormEvent) (s : FormState)
    (h : s.category ∈ availableCategories s.type) :
    (evs.foldl stepForm s).category ∈
      availableCategories (evs.foldl stepForm s).type := by
  induction evs generalizing s with
  | nil => exact h
  | cons e evs ih => exact ih (stepForm s e) (normalizeCategory_mem _)

lemma runForm_mem (today : String) (evs : List FormEvent) :
    (runForm today evs).category ∈ availableCategories (runForm today evs).type :=
  foldl_stepForm_mem evs _ (normalizeCategory_mem _)

/-- C9: after any sequence of form events, the form state — and hence any
transaction committed by `handleSubmit`, which copies the state's category
and type — never holds a forbidden category/type combination: income is
never invoice-reimbursement or fund-source (MORNING_KINGDOM), and expense
is never student-payment. -/
theorem form_never_forbidden_combination (today : String) (evs : List FormEvent) :
    ((runForm today evs).type = TxType.income →
        (runForm today evs).category ≠ Category.INVOICE_REIMBURSEMENT ∧
          (runForm today evs).category ≠ Category.MORNING_KINGDOM) ∧
      ((runForm today evs).type = TxType.expense →
        (runForm today evs).category ≠ Category.STUDENT_PAYMENT) := by
  have hmem := runForm_mem today evs
  constructor
  · intro hty
    rw [hty] at hmem
    revert hmem
    cases (runForm today evs).category <;> decide
  · intro hty
    rw [hty] at hmem
    revert hmem
    cases (runForm today evs).category <;> decide

/-- Witness for C9: after switching the form to income, the category is
coerced away from the forbidden invoice-reimbursement default. -/
theorem form_never_forbidden_combination_witness :
    (runForm "2024-01-01" [FormEvent.setType TxType.income]).category ≠
        Category.INVOICE_REIMBURSEMENT ∧
      (runForm "2024-01-01" [FormEvent.setType TxType.income]).category ≠
        Category.MORNING_KINGDOM :=
  (form_never_forbidden_combination "2024-01-01" [FormEvent.setType TxType.income]).1 rfl

end Cash
